import Mathlib

set_option maxRecDepth 100000

/-!
Verification of the OpenBao AppRole SecretID validation subsystem
(`builtin/credential/approle/validation.go`).

Shallow embedding conventions:
* Go `time.Duration` and `time.Time` are modelled as `Int` (nanoseconds); the
  zero value of `time.Time` is `0`; `time.Now()` is passed in explicitly as a
  `now : Int` parameter.
* The logical storage backend is modelled as two typed association lists (the
  subsystem keeps SecretID entries and accessor entries under disjoint key
  prefixes); the JSON encode/decode round trip is modelled as the identity.
  Storage faults are injected through explicit `putFails` / `deleteFails`
  key lists, and every successful `Put` is recorded in an ordered write log so
  that temporal ordering claims can be stated.
* `crypto/hmac` + `crypto/sha256` are embedded as an executable HMAC-SHA-256
  over byte lists (`Nat` values `< 256`), with Go string bytes obtained by
  UTF-8 encoding.
* Locks have no effect in a sequential embedding; the code section that runs
  under the write lock after the read-lock check is embedded as its own
  function (`registerSecretIDEntryLocked`) so that the double-checked pattern
  can be examined against an arbitrary storage state seen after the lock
  switch.
-/

/-- Decidable equality for `Except`, used to evaluate concrete runs. -/
instance {ε α : Type} [DecidableEq ε] [DecidableEq α] : DecidableEq (Except ε α) := fun x y =>
  match x, y with
  | .ok a, .ok b =>
    if h : a = b then .isTrue (by rw [h]) else .isFalse (by simp [h])
  | .error a, .error b =>
    if h : a = b then .isTrue (by rw [h]) else .isFalse (by simp [h])
  | .ok _, .error _ => .isFalse (by simp)
  | .error _, .ok _ => .isFalse (by simp)

/-! ## Bytes, UTF-8 and hex encoding -/

/-- UTF-8 encoding of a single character, as byte values. -/
def charUtf8 (c : Char) : List Nat :=
  let n := c.toNat
  if n < 128 then [n]
  else if n < 2048 then [192 ||| (n >>> 6), 128 ||| (n &&& 63)]
  else if n < 65536 then
    [224 ||| (n >>> 12), 128 ||| ((n >>> 6) &&& 63), 128 ||| (n &&& 63)]
  else
    [240 ||| (n >>> 18), 128 ||| ((n >>> 12) &&& 63),
     128 ||| ((n >>> 6) &&& 63), 128 ||| (n &&& 63)]

/-- The bytes of a Go string (Go strings are UTF-8 encoded; `len` counts bytes). -/
def utf8Bytes (s : String) : List Nat :=
  s.data.flatMap charUtf8

/-- Lower-case hex digit for a value below 16. -/
def hexChar (n : Nat) : Char :=
  if n < 10 then Char.ofNat (48 + n) else Char.ofNat (87 + n)

/-- Hex characters of a byte list, two lower-case digits per byte. -/
def hexChars : List Nat → List Char
  | [] => []
  | b :: bs => hexChar (b / 16) :: hexChar (b % 16) :: hexChars bs

/-- Embedding of `encoding/hex.EncodeToString` on a byte list. -/
def hexEncode (bs : List Nat) : String :=
  ⟨hexChars bs⟩

/-- The sixteen lower-case hex digits: 0-9 then a-f. -/
def hexDigits : List Char :=
  (List.range 10).map (fun n => Char.ofNat (48 + n)) ++
    (List.range 6).map (fun n => Char.ofNat (97 + n))

/-! ## SHA-256 (`crypto/sha256`) over byte lists -/

/-- Truncation to a 32-bit word. -/
def w32 (x : Nat) : Nat := x % 4294967296

/-- 32-bit right rotation. -/
def rotr32 (x n : Nat) : Nat := w32 ((x >>> n) ||| (x <<< (32 - n)))

/-- SHA-256 small sigma 0. -/
def smallSig0 (x : Nat) : Nat := (rotr32 x 7) ^^^ (rotr32 x 18) ^^^ (x >>> 3)

/-- SHA-256 small sigma 1. -/
def smallSig1 (x : Nat) : Nat := (rotr32 x 17) ^^^ (rotr32 x 19) ^^^ (x >>> 10)

/-- SHA-256 big sigma 0. -/
def bigSig0 (x : Nat) : Nat := (rotr32 x 2) ^^^ (rotr32 x 13) ^^^ (rotr32 x 22)

/-- SHA-256 big sigma 1. -/
def bigSig1 (x : Nat) : Nat := (rotr32 x 6) ^^^ (rotr32 x 11) ^^^ (rotr32 x 25)

/-- SHA-256 choice function. -/
def chf (x y z : Nat) : Nat := (x &&& y) ^^^ ((x ^^^ 4294967295) &&& z)

/-- SHA-256 majority function. -/
def majf (x y z : Nat) : Nat := (x &&& y) ^^^ (x &&& z) ^^^ (y &&& z)

/-- The 64 SHA-256 round constants. -/
def sha256K : List Nat :=
  [1116352408, 1899447441, 3049323471, 3921009573,
   961987163, 1508970993, 2453635748, 2870763221,
   3624381080, 310598401, 607225278, 1426881987,
   1925078388, 2162078206, 2614888103, 3248222580,
   3835390401, 4022224774, 264347078, 604807628,
   770255983, 1249150122, 1555081692, 1996064986,
   2554220882, 2821834349, 2952996808, 3210313671,
   3336571891, 3584528711, 113926993, 338241895,
   666307205, 773529912, 1294757372, 1396182291,
   1695183700, 1986661051, 2177026350, 2456956037,
   2730485921, 2820302411, 3259730800, 3345764771,
   3516065817, 3600352804, 4094571909, 275423344,
   430227734, 506948616, 659060556, 883997877,
   958139571, 1322822218, 1537002063, 1747873779,
   1955562222, 2024104815, 2227730452, 2361852424,
   2428436474, 2756734187, 3204031479, 3329325298]

/-- Message-schedule extension: `acc` holds the words produced so far, newest
first; `n` more words are appended. -/
def schedExtend : List Nat → Nat → List Nat
  | acc, 0 => acc
  | acc, n + 1 =>
    let nw := w32 (smallSig1 (acc.getD 1 0) + acc.getD 6 0 +
                   smallSig0 (acc.getD 14 0) + acc.getD 15 0)
    schedExtend (nw :: acc) n

/-- The 64-entry message schedule of one block (given as 16 words). -/
def schedule (ws : List Nat) : List Nat :=
  (schedExtend ws.reverse 48).reverse

/-- The SHA-256 working state: eight 32-bit words. -/
abbrev Sha256St := Nat × Nat × Nat × Nat × Nat × Nat × Nat × Nat

/-- One SHA-256 compression round. -/
def sha256Round (st : Sha256St) (kw : Nat × Nat) : Sha256St :=
  match st with
  | (a, b, c, d, e, f, g, h) =>
    let t1 := w32 (h + bigSig1 e + chf e f g + kw.1 + kw.2)
    let t2 := w32 (bigSig0 a + majf a b c)
    (w32 (t1 + t2), a, b, c, w32 (d + t1), e, f, g)

/-- Pointwise addition of two states, mod 2^32. -/
def addSt (x y : Sha256St) : Sha256St :=
  match x, y with
  | (a, b, c, d, e, f, g, h), (a', b', c', d', e', f', g', h') =>
    (w32 (a + a'), w32 (b + b'), w32 (c + c'), w32 (d + d'),
     w32 (e + e'), w32 (f + f'), w32 (g + g'), w32 (h + h'))

/-- Compress one 16-word block into the running hash state. -/
def compressBlock (st : Sha256St) (ws : List Nat) : Sha256St :=
  addSt st ((sha256K.zip (schedule ws)).foldl sha256Round st)

/-- The SHA-256 initial hash state. -/
def sha256Init : Sha256St :=
  (1779033703, 3144134277, 1013904242, 2773480762,
   1359893119, 2600822924, 528734635, 1541459225)

/-- Big-endian bytes of `x`, `n` bytes wide. -/
def natToBytesBE (n x : Nat) : List Nat :=
  (List.range n).reverse.map (fun i => (x >>> (8 * i)) % 256)

/-- SHA-256 padding: append `0x80`, zeros, and the 64-bit big-endian bit
length, reaching a multiple of 64 bytes. -/
def sha256Pad (msg : List Nat) : List Nat :=
  let l := msg.length
  let zeros := (120 - ((l + 1) % 64)) % 64
  msg ++ 128 :: List.replicate zeros 0 ++ natToBytesBE 8 (8 * l)

/-- Big-endian 4-byte groups to words. -/
def bytesToWords : List Nat → List Nat
  | b0 :: b1 :: b2 :: b3 :: bs =>
    (((b0 * 256 + b1) * 256 + b2) * 256 + b3) :: bytesToWords bs
  | _ => []

/-- Words to big-endian bytes. -/
def wordsToBytes : List Nat → List Nat
  | [] => []
  | w :: ws =>
    (w >>> 24) % 256 :: (w >>> 16) % 256 :: (w >>> 8) % 256 :: w % 256 ::
      wordsToBytes ws

/-- Split a list into chunks of `n`, with explicit fuel for termination. -/
def chunksAux (fuel n : Nat) (xs : List α) : List (List α) :=
  match fuel, xs with
  | 0, _ => []
  | _, [] => []
  | f + 1, xs => xs.take n :: chunksAux f n (xs.drop n)

/-- Split a list into chunks of `n` elements. -/
def chunks (n : Nat) (xs : List α) : List (List α) :=
  chunksAux xs.length n xs

/-- SHA-256 of a byte list, as 32 bytes. -/
def sha256 (msg : List Nat) : List Nat :=
  let st := (chunks 64 (sha256Pad msg)).foldl
    (fun st blk => compressBlock st (bytesToWords blk)) sha256Init
  match st with
  | (a, b, c, d, e, f, g, h) => wordsToBytes [a, b, c, d, e, f, g, h]

/-! ## HMAC (`crypto/hmac`) -/

/-- Pad or hash an HMAC key down to the 64-byte SHA-256 block size. -/
def hmacNormalizeKey (key : List Nat) : List Nat :=
  let k := if key.length > 64 then sha256 key else key
  k ++ List.replicate (64 - k.length) 0

/-- HMAC-SHA-256 of `msg` under `key`, as 32 bytes. -/
def hmacSha256 (key msg : List Nat) : List Nat :=
  let k := hmacNormalizeKey key
  let ipad := k.map (fun b => b ^^^ 54)
  let opad := k.map (fun b => b ^^^ 92)
  sha256 (opad ++ sha256 (ipad ++ msg))

/-! ## `createHMAC` (validation.go:108-124) -/

/-- The constant `maxHmacInputLength` (validation.go:108). -/
def maxHmacInputLength : Nat := 4096

/-- Embedding of `createHMAC` (validation.go:112-124): SHA-256 HMAC of `value` under `key`,
hex encoded; rejects an empty key and an oversized value. -/
def createHMAC (key value : String) : Except String String :=
  if key = "" then
    .error "invalid HMAC key"
  else if (utf8Bytes value).length > maxHmacInputLength then
    .error "value is longer than maximum of 4096 bytes"
  else
    .ok (hexEncode (hmacSha256 (utf8Bytes key) (utf8Bytes value)))


/-! ## CIDR containment (`sdk/v2/helper/cidrutil`, spec §4.7) -/

/-- Split a character list at every occurrence of `sep` (kernel-reducible
counterpart of `String.splitOn` for one-character separators). -/
def splitOnChar (sep : Char) : List Char → List (List Char)
  | [] => [[]]
  | c :: cs =>
    let r := splitOnChar sep cs
    if c = sep then [] :: r
    else
      match r with
      | [] => [[c]]
      | g :: gs => (c :: g) :: gs

/-- Decimal digits to a number, rejecting non-digit characters. -/
def digitsToNatAux : List Char → Nat → Option Nat
  | [], acc => some acc
  | c :: cs, acc =>
    if c.isDigit then digitsToNatAux cs (acc * 10 + (c.toNat - 48)) else none

/-- Decimal digits to a number; a non-digit or an empty list is rejected. -/
def digitsToNat? (cs : List Char) : Option Nat :=
  match cs with
  | [] => none
  | _ => digitsToNatAux cs 0

/-- Modelled from the spec: one dotted-decimal IPv4 octet (0–255). The
`cidrutil` helper package is not among the provided sources; §4.7 specifies
that every block "must resolve to an address range". -/
def parseOctet (cs : List Char) : Option Nat :=
  match digitsToNat? cs with
  | some n => if n ≤ 255 then some n else none
  | none => none

/-- Modelled from the spec: a dotted-decimal IPv4 address as a 32-bit value. -/
def parseIPv4 (cs : List Char) : Option Nat :=
  match splitOnChar '.' cs with
  | [a, b, c, d] =>
    match parseOctet a, parseOctet b, parseOctet c, parseOctet d with
    | some a, some b, some c, some d =>
      some (((a * 256 + b) * 256 + c) * 256 + d)
    | _, _, _, _ => none
  | _ => none

/-- Modelled from the spec: a CIDR block `addr/maskLen`; a bare address with
no mask does not resolve (net.ParseCIDR semantics assumed by §4.7's
normalization requirement). -/
def parseCIDR (s : String) : Option (Nat × Nat) :=
  match splitOnChar '/' s.data with
  | [ip, m] =>
    match parseIPv4 ip, digitsToNat? m with
    | some ip, some m => if m ≤ 32 then some (ip, m) else none
    | _, _ => none
  | _ => none

/-- Modelled from the spec: `cidrutil.Subset` — whether block `c2` lies inside
block `c1`; a block that fails to resolve is an error. -/
def cidrSubset (c1 c2 : String) : Except String Bool :=
  match parseCIDR c1 with
  | none => .error ("failed to parse the CIDR block " ++ c1)
  | some (ip1, m1) =>
    match parseCIDR c2 with
    | none => .error ("failed to parse the CIDR block " ++ c2)
    | some (ip2, m2) =>
      if m2 < m1 then .ok false
      else .ok (decide (ip1 >>> (32 - m1) = ip2 >>> (32 - m1)))

/-- Modelled from the spec: the inner loop of `cidrutil.SubsetBlocks` — does
`b2` lie inside at least one block of `bs1`? -/
def subsetOne (bs1 : List String) (b2 : String) : Except String Bool :=
  match bs1 with
  | [] => .ok false
  | b1 :: rest =>
    match cidrSubset b1 b2 with
    | .error e => .error e
    | .ok true => .ok true
    | .ok false => subsetOne rest b2

/-- Modelled from the spec: the outer loop of `cidrutil.SubsetBlocks` over
the blocks that need to be checked. -/
def subsetBlocksGo (bs1 : List String) : List String → Except String Bool
  | [] => .ok true
  | b2 :: rest =>
    match subsetOne bs1 b2 with
    | .error e => .error e
    | .ok false => .ok false
    | .ok true => subsetBlocksGo bs1 rest

/-- Modelled from the spec: `cidrutil.SubsetBlocks bs1 bs2` — §4.7: every
block of `bs2` must be fully contained in the blocks of `bs1`. -/
def subsetBlocks (bs1 bs2 : List String) : Except String Bool :=
  if bs1.isEmpty then .error "missing CIDR blocks to be checked against"
  else if bs2.isEmpty then .error "missing CIDR blocks that needs to be checked"
  else subsetBlocksGo bs1 bs2

/-- Rendering of a Go `[]string` under the `%q` format verb. -/
def quoteStrList (xs : List String) : String :=
  "[" ++ String.intercalate " " (xs.map (fun s => "\"" ++ s ++ "\"")) ++ "]"

/-- The message of the error built at validation.go:95-100. -/
def cidrSubsetFailMsg (roleList secretList : List String) (e : Option String) : String :=
  "failed to verify subset relationship between CIDR blocks on the role " ++
    quoteStrList roleList ++ " and CIDR blocks on the secret ID " ++
    quoteStrList secretList ++ ": " ++
    (match e with
     | some e => e
     | none => "%!w(<nil>)")

/-- The per-element normalization at validation.go:87-91: a block without a
"/" gets a host-only "/32" mask appended. -/
def normalizeRoleCIDR (block : String) : String :=
  if block.data.contains '/' then block else block ++ "/32"

/-- Embedding of `verifyCIDRRoleSecretIDSubset` (validation.go:80-106). The Go function
mutates its `roleBoundCIDRList` slice argument in place (appending "/32" to
bare addresses); the embedding returns the final contents of that slice as the
second component. -/
def verifyCIDRRoleSecretIDSubset (secretIDCIDRs roleBoundCIDRList : List String) :
    Except String Unit × List String :=
  if secretIDCIDRs.length ≠ 0 then
    if roleBoundCIDRList.length ≠ 0 then
      let rl := roleBoundCIDRList.map normalizeRoleCIDR
      match subsetBlocks rl secretIDCIDRs with
      | .ok true => (.ok (), rl)
      | .ok false => (.error (cidrSubsetFailMsg rl secretIDCIDRs none), rl)
      | .error e => (.error (cidrSubsetFailMsg rl secretIDCIDRs (some e)), rl)
    else (.ok (), roleBoundCIDRList)
  else (.ok (), roleBoundCIDRList)


/-! ## `deriveSecretIDTTL` (validation.go:312-318) -/

/-- Embedding of `deriveSecretIDTTL` (validation.go:312-318): the backend's
`System().MaxLeaseTTL()` is passed as `sysMaxLeaseTTL`; durations are
modelled as `Int`. -/
def deriveSecretIDTTL (sysMaxLeaseTTL secretIDTTL : Int) : Int :=
  if secretIDTTL < 0 ∨ secretIDTTL > sysMaxLeaseTTL then sysMaxLeaseTTL
  else secretIDTTL

/-! ## Data model (validation.go:23-76) -/

/-- Embedding of `secretIDStorageEntry` (validation.go:26-66). Durations and times are
`Int` nanoseconds; `time.Time`'s zero value is `0`. -/
structure SecretIDStorageEntry where
  SecretIDAccessor : String := ""
  SecretIDNumUses : Int := 0
  SecretIDTTL : Int := 0
  CreationTime : Int := 0
  ExpirationTime : Int := 0
  LastUpdatedTime : Int := 0
  Metadata : List (String × String) := []
  CIDRList : List String := []
  TokenBoundCIDRs : List String := []
  SecretIDNumUsesDeprecated : Int := 0
deriving DecidableEq, Repr

/-- Embedding of `secretIDAccessorStorageEntry` (validation.go:72-76). -/
structure SecretIDAccessorStorageEntry where
  SecretIDHMAC : String := ""
deriving DecidableEq, Repr

/-! ## The storage backend (`logical.Storage`), modelled

The subsystem stores SecretID entries and accessor entries under disjoint key
prefixes, so the store is modelled as two typed association lists. A put or
delete on a key listed in `putFails` / `deleteFails` fails with a backend
error, modelling `StorageFailure`; every successful put is appended to `log`
so that the order of writes is observable. -/

/-- A successful storage write, as recorded in the write log. -/
inductive WriteEvent where
  | putSecret (key : String)
  | putAccessor (key : String)
deriving DecidableEq, Repr

/-- The storage backend state. -/
structure Store where
  secrets : List (String × SecretIDStorageEntry) := []
  accessors : List (String × SecretIDAccessorStorageEntry) := []
  putFails : List String := []
  deleteFails : List String := []
  log : List WriteEvent := []
deriving DecidableEq, Repr

/-- Association-list lookup by key (first match). -/
def assocGet {α : Type} : List (String × α) → String → Option α
  | [], _ => none
  | kv :: rest, k => if kv.1 = k then some kv.2 else assocGet rest k

/-- Association-list removal of a key. -/
def assocDel {α : Type} : List (String × α) → String → List (String × α)
  | [], _ => []
  | kv :: rest, k => if kv.1 = k then assocDel rest k else kv :: assocDel rest k

/-- Association-list insertion or replacement of a key. -/
def assocSet {α : Type} (l : List (String × α)) (k : String) (v : α) :
    List (String × α) :=
  (k, v) :: assocDel l k

/-- Embedding of `Storage.Get` on a SecretID entry key. -/
def Store.getSecret (st : Store) (k : String) : Option SecretIDStorageEntry :=
  assocGet st.secrets k

/-- Embedding of `Storage.Get` on an accessor entry key. -/
def Store.getAccessor (st : Store) (k : String) : Option SecretIDAccessorStorageEntry :=
  assocGet st.accessors k

/-- Embedding of `Storage.Put` of a SecretID entry. -/
def Store.putSecret (st : Store) (k : String) (v : SecretIDStorageEntry) :
    Except String Store :=
  if st.putFails.contains k then .error "storage put failed"
  else .ok { st with
    secrets := assocSet st.secrets k v,
    log := st.log ++ [.putSecret k] }

/-- Embedding of `Storage.Put` of an accessor entry. -/
def Store.putAccessor (st : Store) (k : String) (v : SecretIDAccessorStorageEntry) :
    Except String Store :=
  if st.putFails.contains k then .error "storage put failed"
  else .ok { st with
    accessors := assocSet st.accessors k v,
    log := st.log ++ [.putAccessor k] }

/-- Embedding of `Storage.Delete` of a SecretID entry key. -/
def Store.deleteSecret (st : Store) (k : String) : Except String Store :=
  if st.deleteFails.contains k then .error "storage delete failed"
  else .ok { st with secrets := assocDel st.secrets k }

/-- Drop a prefix from a character list, or fail. -/
def listDropPfx : List Char → List Char → Option (List Char)
  | [], s => some s
  | _, [] => none
  | p :: ps, c :: cs => if p = c then listDropPfx ps cs else none

/-- Embedding of `Storage.List`: the keys under a prefix, relative to that prefix, in
storage order. -/
def Store.listSecrets (st : Store) (p : String) : List String :=
  st.secrets.filterMap (fun kv => (listDropPfx p.data kv.1.data).map String.mk)

/-! ## Storage prefixes and external collaborators -/

/-- Modelled from the spec: the local-mount SecretID prefix constant
(declared outside the provided sources; only its distinguished value
matters here). -/
def secretIDLocalPfx : String := "secret_id_local/"

/-- Modelled from the spec: the accessor index prefix (§4.5; declared outside
the provided sources). -/
def secretIDAccessorPfx : String := "accessor/"

/-- Modelled from the spec: the accessor index prefix of a local mount
(declared outside the provided sources). -/
def secretIDAccessorLocalPfx : String := "accessor_local/"

/-- Modelled from the spec: `salt.SaltID`, the digest-obfuscation of the
accessor's storage key (§4.5); the salting scheme itself is supplied by an
external key-management collaborator and is not among the provided sources.
Any injective string transform is faithful at this interface. -/
def saltID (s : String) : String := "salted/" ++ s

/-- The storage index of the accessor entry for `accessorUUID`
(validation.go:372-376). -/
def accessorEntryIndex (roleSecretIDPfx accessorUUID : String) : String :=
  (if roleSecretIDPfx = secretIDLocalPfx then secretIDAccessorLocalPfx
   else secretIDAccessorPfx) ++ saltID accessorUUID

/-- The storage index of a SecretID entry (validation.go:172,231). -/
def secretIDEntryIndex (roleSecretIDPfx roleNameHMAC secretIDHMAC : String) : String :=
  roleSecretIDPfx ++ roleNameHMAC ++ "/" ++ secretIDHMAC

/-! ## Reading and writing SecretID entries (validation.go:158-240) -/

/-- Embedding of `nonLockedSetSecretIDStorageEntry` (validation.go:215-240); the nil-entry
guard has no counterpart for a non-nullable Lean value. -/
def nonLockedSetSecretIDStorageEntry (st : Store)
    (roleSecretIDPfx roleNameHMAC secretIDHMAC : String)
    (secretEntry : SecretIDStorageEntry) : Except String Store :=
  if roleSecretIDPfx = "" then .error "missing secret ID prefix"
  else if secretIDHMAC = "" then .error "missing secret ID HMAC"
  else if roleNameHMAC = "" then .error "missing role name HMAC"
  else st.putSecret (secretIDEntryIndex roleSecretIDPfx roleNameHMAC secretIDHMAC) secretEntry

/-- The deprecated-use-count upgrade block of `nonLockedSecretIDStorageEntry`
(validation.go:187-199); returns the reconciled entry and whether a rewrite
is needed. -/
def reconcileNumUses (e : SecretIDStorageEntry) : SecretIDStorageEntry × Bool :=
  if e.SecretIDNumUsesDeprecated ≠ 0 then
    let p :=
      if e.SecretIDNumUses = 0 ∨ e.SecretIDNumUsesDeprecated < e.SecretIDNumUses then
        ({ e with SecretIDNumUses := e.SecretIDNumUsesDeprecated }, true)
      else (e, false)
    if p.1.SecretIDNumUses < p.1.SecretIDNumUsesDeprecated then
      ({ p.1 with SecretIDNumUsesDeprecated := p.1.SecretIDNumUses }, true)
    else p
  else (e, false)

/-- Embedding of `nonLockedSecretIDStorageEntry` (validation.go:162-208). The JSON decode
step and its CIDR-string cleanup are modelled as the identity (the store holds
decoded entries). Returns the result and the possibly-updated store (the
deprecated-field upgrade rewrites the entry on this read path). -/
def nonLockedSecretIDStorageEntry (st : Store)
    (roleSecretIDPfx roleNameHMAC secretIDHMAC : String) :
    Except String (Option SecretIDStorageEntry) × Store :=
  if secretIDHMAC = "" then (.error "missing secret ID HMAC", st)
  else if roleNameHMAC = "" then (.error "missing role name HMAC", st)
  else
    match st.getSecret (secretIDEntryIndex roleSecretIDPfx roleNameHMAC secretIDHMAC) with
    | none => (.ok none, st)
    | some e =>
      let r := reconcileNumUses e
      if r.2 then
        match nonLockedSetSecretIDStorageEntry st roleSecretIDPfx roleNameHMAC
            secretIDHMAC r.1 with
        | .error err => (.error ("failed to upgrade role storage entry " ++ err), st)
        | .ok st' => (.ok (some r.1), st')
      else (.ok (some r.1), st)

/-- Embedding of `createSecretIDAccessorEntry` (validation.go:358-391). The random UUID
(`uuid.GenerateUUID`) and the salt are external inputs; the UUID is passed in
as `accessorUUID`. Returns the entry with its accessor field set, and the
updated store. -/
def createSecretIDAccessorEntry (st : Store) (accessorUUID : String)
    (entry : SecretIDStorageEntry) (secretIDHMAC roleSecretIDPfx : String) :
    Except String SecretIDStorageEntry × Store :=
  let entry' := { entry with SecretIDAccessor := accessorUUID }
  match st.putAccessor (accessorEntryIndex roleSecretIDPfx accessorUUID)
      { SecretIDHMAC := secretIDHMAC } with
  | .error e => (.error ("failed to persist accessor index entry: " ++ e), st)
  | .ok st' => (.ok entry', st')

/-! ## Registration (validation.go:242-304) -/

/-- The part of `registerSecretIDEntry` that runs while holding the write
lock (validation.go:272-303): the double-checked re-read, the timestamp and
TTL stamping, the accessor write and the primary write. In the sequential
embedding it receives the storage state as seen after the lock switch. -/
def registerSecretIDEntryLocked (sysMaxLeaseTTL now : Int) (accessorUUID : String)
    (st : Store) (roleSecretIDPfx roleNameHMAC secretIDHMAC : String)
    (secretEntry : SecretIDStorageEntry) :
    Except String SecretIDStorageEntry × Store :=
  match nonLockedSecretIDStorageEntry st roleSecretIDPfx roleNameHMAC secretIDHMAC with
  | (.error e, st') => (.error e, st')
  | (.ok (some _), st') => (.error "SecretID is already registered", st')
  | (.ok none, st') =>
    let e1 := { secretEntry with CreationTime := now, LastUpdatedTime := now }
    let ttl := deriveSecretIDTTL sysMaxLeaseTTL e1.SecretIDTTL
    let e2 := if ttl ≠ 0 then { e1 with ExpirationTime := now + ttl } else e1
    match createSecretIDAccessorEntry st' accessorUUID e2 secretIDHMAC roleSecretIDPfx with
    | (.error e, st'') => (.error e, st'')
    | (.ok e3, st'') =>
      match nonLockedSetSecretIDStorageEntry st'' roleSecretIDPfx roleNameHMAC
          secretIDHMAC e3 with
      | .error e => (.error e, st'')
      | .ok st''' => (.ok e3, st''')

/-- Embedding of `registerSecretIDEntry` (validation.go:243-304): `b.System().MaxLeaseTTL()`,
`time.Now()` and the generated accessor UUID are passed in as
`sysMaxLeaseTTL`, `now` and `accessorUUID`. -/
def registerSecretIDEntry (sysMaxLeaseTTL now : Int) (accessorUUID : String)
    (st : Store) (roleName secretID hmacKey roleSecretIDPfx : String)
    (secretEntry : SecretIDStorageEntry) :
    Except String SecretIDStorageEntry × Store :=
  match createHMAC hmacKey secretID with
  | .error e => (.error ("failed to create HMAC of secret ID: " ++ e), st)
  | .ok secretIDHMAC =>
    match createHMAC hmacKey roleName with
    | .error e => (.error ("failed to create HMAC of role_name: " ++ e), st)
    | .ok roleNameHMAC =>
      match nonLockedSecretIDStorageEntry st roleSecretIDPfx roleNameHMAC secretIDHMAC with
      | (.error e, st') => (.error e, st')
      | (.ok (some _), st') => (.error "SecretID is already registered", st')
      | (.ok none, st') =>
        registerSecretIDEntryLocked sysMaxLeaseTTL now accessorUUID st'
          roleSecretIDPfx roleNameHMAC secretIDHMAC secretEntry

/-! ## Bulk flush (validation.go:418-446) -/

/-- The per-entry deletion loop of `flushRoleSecrets` (validation.go:434-444). -/
def flushLoop (st : Store) (p : String) : List String → Except String Unit × Store
  | [] => (.ok (), st)
  | h :: rest =>
    match st.deleteSecret (p ++ h) with
    | .error e =>
      (.error ("error deleting SecretID \"" ++ h ++ "\" from storage: " ++ e), st)
    | .ok st' => flushLoop st' p rest

/-- Embedding of `flushRoleSecrets` (validation.go:420-446): deletes every SecretID entry
of the role, stopping at the first storage error. -/
def flushRoleSecrets (st : Store) (roleName hmacKey roleSecretIDPfx : String) :
    Except String Unit × Store :=
  match createHMAC hmacKey roleName with
  | .error e => (.error ("failed to create HMAC of role_name: " ++ e), st)
  | .ok roleNameHMAC =>
    let p := roleSecretIDPfx ++ roleNameHMAC ++ "/"
    flushLoop st p (st.listSecrets p)

/-- The entry actually persisted by a successful registration: the template
stamped with creation/update times, the TTL-derived expiration time, and the
generated accessor (validation.go:285-292 and 364). -/
def regFinalEntry (sysMaxLeaseTTL now : Int) (accessorUUID : String)
    (tmpl : SecretIDStorageEntry) : SecretIDStorageEntry :=
  let e1 := { tmpl with CreationTime := now, LastUpdatedTime := now }
  let ttl := deriveSecretIDTTL sysMaxLeaseTTL e1.SecretIDTTL
  let e2 := if ttl ≠ 0 then { e1 with ExpirationTime := now + ttl } else e1
  { e2 with SecretIDAccessor := accessorUUID }

/-! ## General lemmas about the embedding -/

/-- Hex encoding yields two characters per byte. -/
theorem hexChars_length (bs : List Nat) : (hexChars bs).length = 2 * bs.length := by
  induction bs with
  | nil => simp [hexChars]
  | cons b bs ih => simp [hexChars, ih]; omega

/-- Every byte produced from words is below 256. -/
theorem wordsToBytes_lt (ws : List Nat) : ∀ b ∈ wordsToBytes ws, b < 256 := by
  induction ws with
  | nil => simp [wordsToBytes]
  | cons w ws ih =>
    intro b hb
    simp [wordsToBytes] at hb
    rcases hb with h | h | h | h | h
    · omega
    · omega
    · omega
    · omega
    · exact ih b h

/-- A SHA-256 digest is 32 bytes long. -/
theorem sha256_length (msg : List Nat) : (sha256 msg).length = 32 := by
  show (match (chunks 64 (sha256Pad msg)).foldl
      (fun st blk => compressBlock st (bytesToWords blk)) sha256Init with
    | (a, b, c, d, e, f, g, h) => wordsToBytes [a, b, c, d, e, f, g, h]).length = 32
  generalize (chunks 64 (sha256Pad msg)).foldl
      (fun st blk => compressBlock st (bytesToWords blk)) sha256Init = t
  obtain ⟨a, b, c, d, e, f, g, h⟩ := t
  simp [wordsToBytes]

/-- Every byte of a SHA-256 digest is below 256. -/
theorem sha256_lt (msg : List Nat) : ∀ b ∈ sha256 msg, b < 256 := by
  show ∀ b ∈ (match (chunks 64 (sha256Pad msg)).foldl
      (fun st blk => compressBlock st (bytesToWords blk)) sha256Init with
    | (a, b, c, d, e, f, g, h) => wordsToBytes [a, b, c, d, e, f, g, h]), b < 256
  generalize (chunks 64 (sha256Pad msg)).foldl
      (fun st blk => compressBlock st (bytesToWords blk)) sha256Init = t
  obtain ⟨a, b, c, d, e, f, g, h⟩ := t
  exact wordsToBytes_lt _

/-- An HMAC-SHA-256 digest is 32 bytes long. -/
theorem hmacSha256_length (key msg : List Nat) : (hmacSha256 key msg).length = 32 := by
  unfold hmacSha256
  exact sha256_length _

/-- Every byte of an HMAC-SHA-256 digest is below 256. -/
theorem hmacSha256_lt (key msg : List Nat) : ∀ b ∈ hmacSha256 key msg, b < 256 := by
  unfold hmacSha256
  exact sha256_lt _

/-- Applying `hexChar` to a value below 16 yields a hex digit. -/
theorem hexChar_mem : ∀ n, n < 16 → hexChar n ∈ hexDigits := by decide

/-- Hex encoding of bytes yields only hex digits. -/
theorem hexChars_mem (bs : List Nat) (hb : ∀ b ∈ bs, b < 256) :
    ∀ c ∈ hexChars bs, c ∈ hexDigits := by
  induction bs with
  | nil => simp [hexChars]
  | cons b bs ih =>
    intro c hc
    have hblt : b < 256 := hb b (by simp)
    simp [hexChars] at hc
    rcases hc with h | h | h
    · subst h; exact hexChar_mem _ (by omega)
    · subst h; exact hexChar_mem _ (by omega)
    · exact ih (fun x hx => hb x (by simp [hx])) c h

/-! ## Claim C3 -/

/-- Claim C3: `deriveSecretIDTTL` returns the system max when the requested
TTL is negative or exceeds the system max, returns the requested value
otherwise, and in particular a requested TTL of 0 (with positive max)
yields 0, not the max. -/
theorem deriveSecretIDTTL_policy (requested sysMax : Int) :
    ((requested < 0 ∨ requested > sysMax) → deriveSecretIDTTL sysMax requested = sysMax)
  ∧ (0 ≤ requested → requested ≤ sysMax → deriveSecretIDTTL sysMax requested = requested)
  ∧ (0 < sysMax → deriveSecretIDTTL sysMax 0 = 0) := by
  refine ⟨fun h => ?_, fun h1 h2 => ?_, fun h => ?_⟩ <;>
    simp only [deriveSecretIDTTL] <;> split_ifs <;> first | rfl | omega

/-- Witness for C3, at the spec's own test vectors. -/
theorem deriveSecretIDTTL_policy_witness :
    deriveSecretIDTTL 10 (-1) = 10 ∧ deriveSecretIDTTL 10 5 = 5 ∧
    deriveSecretIDTTL 10 20 = 10 ∧ deriveSecretIDTTL 10 0 = 0 :=
  ⟨(deriveSecretIDTTL_policy (-1) 10).1 (Or.inl (by norm_num)),
   (deriveSecretIDTTL_policy 5 10).2.1 (by norm_num) (by norm_num),
   (deriveSecretIDTTL_policy 20 10).1 (Or.inr (by norm_num)),
   (deriveSecretIDTTL_policy 0 10).2.2 (by norm_num)⟩

/-! ## Claim C4 -/

/-- Claim C4: `createHMAC key value` fails exactly when the key is empty
(invalid-key error) or the value is longer than 4096 bytes; on every other
input it succeeds with the hex encoding of the HMAC-SHA-256 digest — a
64-character lower-case hex string. Determinism is inherent: `createHMAC` is
embedded as a pure function of `(key, value)`. -/
theorem createHMAC_contract (key value : String) :
    ((∃ d, createHMAC key value = .ok d) ↔
      key ≠ "" ∧ (utf8Bytes value).length ≤ maxHmacInputLength)
  ∧ (key = "" → createHMAC key value = .error "invalid HMAC key")
  ∧ (key ≠ "" → maxHmacInputLength < (utf8Bytes value).length →
      createHMAC key value = .error "value is longer than maximum of 4096 bytes")
  ∧ (∀ d, createHMAC key value = .ok d →
      d = hexEncode (hmacSha256 (utf8Bytes key) (utf8Bytes value)) ∧
      d.length = 64 ∧ ∀ c ∈ d.data, c ∈ hexDigits) := by
  refine ⟨⟨fun hex => ?_, fun hc => ?_⟩, fun hk => ?_, fun hk hlen => ?_, fun d hd => ?_⟩
  · obtain ⟨d, hd⟩ := hex
    unfold createHMAC at hd
    by_cases h1 : key = ""
    · rw [if_pos h1] at hd; cases hd
    · rw [if_neg h1] at hd
      by_cases h2 : (utf8Bytes value).length > maxHmacInputLength
      · rw [if_pos h2] at hd; cases hd
      · exact ⟨h1, by omega⟩
  · obtain ⟨hk, hlen⟩ := hc
    refine ⟨hexEncode (hmacSha256 (utf8Bytes key) (utf8Bytes value)), ?_⟩
    unfold createHMAC
    rw [if_neg hk, if_neg (by omega)]
  · unfold createHMAC
    rw [if_pos hk]
  · unfold createHMAC
    rw [if_neg hk, if_pos (by omega)]
  · unfold createHMAC at hd
    by_cases h1 : key = ""
    · rw [if_pos h1] at hd; cases hd
    · rw [if_neg h1] at hd
      by_cases h2 : (utf8Bytes value).length > maxHmacInputLength
      · rw [if_pos h2] at hd; cases hd
      · rw [if_neg h2] at hd
        have hde : hexEncode (hmacSha256 (utf8Bytes key) (utf8Bytes value)) = d := by
          simpa using hd
        subst hde
        refine ⟨rfl, ?_, ?_⟩
        · have hl : (hexEncode (hmacSha256 (utf8Bytes key) (utf8Bytes value))).length =
              (hexChars (hmacSha256 (utf8Bytes key) (utf8Bytes value))).length := rfl
          rw [hl, hexChars_length, hmacSha256_length]
        · intro c hc
          exact hexChars_mem _ (hmacSha256_lt _ _) c hc

/-- Witness for C4: the empty-key failure and a concrete successful digest
(64 hex characters), matching the reference value of
HMAC-SHA-256(key="key", value="a"). -/
theorem createHMAC_contract_witness :
    createHMAC "" "x" = .error "invalid HMAC key" ∧
    createHMAC "key" "a" =
      .ok "780c3db4ce3de5b9e55816fba98f590631d96c075271b26976238d5f4444219b" ∧
    ("780c3db4ce3de5b9e55816fba98f590631d96c075271b26976238d5f4444219b" : String).length
      = 64 :=
  ⟨(createHMAC_contract "" "x").2.1 rfl,
   by decide,
   ((createHMAC_contract "key" "a").2.2.2 _ (by decide)).2.1⟩

/-! ## Claim C10 -/

/-- Claim C10: with both argument lists non-empty,
`verifyCIDRRoleSecretIDSubset` mutates the caller's `roleBoundCIDRList` slice
in place — modelled by the returned list — replacing every element without a
"/" by the element with "/32" appended; the modification is visible to the
caller after the call. -/
theorem verifyCIDR_mutates_roleBoundCIDRList (secretIDCIDRs roleBoundCIDRList : List String)
    (hs : secretIDCIDRs ≠ []) (hr : roleBoundCIDRList ≠ []) :
    (verifyCIDRRoleSecretIDSubset secretIDCIDRs roleBoundCIDRList).2 =
      roleBoundCIDRList.map normalizeRoleCIDR := by
  unfold verifyCIDRRoleSecretIDSubset
  have hs' : secretIDCIDRs.length ≠ 0 := by simpa [List.length_eq_zero] using hs
  have hr' : roleBoundCIDRList.length ≠ 0 := by simpa [List.length_eq_zero] using hr
  rw [if_pos hs', if_pos hr']
  dsimp only
  split <;> rfl

/-- Witness for C10 on concrete lists: the bare role address is returned with
a "/32" mask while the masked one is untouched. -/
theorem verifyCIDR_mutates_roleBoundCIDRList_witness :
    (verifyCIDRRoleSecretIDSubset ["10.0.0.0/24"] ["10.0.0.1", "192.168.0.0/16"]).2 =
      ["10.0.0.1/32", "192.168.0.0/16"] := by
  rw [verifyCIDR_mutates_roleBoundCIDRList _ _ (by decide) (by decide)]
  decide

/-! ## Claim C6 -/

/-- Counterexample to claim C6 as stated: a bare address in the secret ID
list is not normalized by `verifyCIDRRoleSecretIDSubset` (only the role list
is), so the spec's example `verifySubset(["10.0.0.1"], ["10.0.0.0/24"])` does
not succeed — the unmasked entry block fails to resolve. -/
theorem verifyCIDR_bare_secretID_address_fails :
    (verifyCIDRRoleSecretIDSubset ["10.0.0.1"] ["10.0.0.0/24"]).1 ≠ .ok () := by
  decide

/-- Claim C6 (amended): only bare addresses of the role's bound CIDR list are
normalized to "/32" before the containment check; the secret ID list is
passed to the check unchanged. -/
theorem verifyCIDR_only_role_list_normalized (secretIDCIDRs roleBoundCIDRList : List String)
    (hs : secretIDCIDRs ≠ []) (hr : roleBoundCIDRList ≠ []) :
    (verifyCIDRRoleSecretIDSubset secretIDCIDRs roleBoundCIDRList).1 = .ok () ↔
      subsetBlocks (roleBoundCIDRList.map normalizeRoleCIDR) secretIDCIDRs = .ok true := by
  unfold verifyCIDRRoleSecretIDSubset
  have hs' : secretIDCIDRs.length ≠ 0 := by simpa [List.length_eq_zero] using hs
  have hr' : roleBoundCIDRList.length ≠ 0 := by simpa [List.length_eq_zero] using hr
  rw [if_pos hs', if_pos hr']
  dsimp only
  cases h : subsetBlocks (roleBoundCIDRList.map normalizeRoleCIDR) secretIDCIDRs with
  | ok b => cases b <;> simp [h]
  | error e => simp [h]

/-- Witness for the amended C6: a bare address on the role side is
normalized, so the reflexive containment succeeds. -/
theorem verifyCIDR_only_role_list_normalized_witness :
    (verifyCIDRRoleSecretIDSubset ["10.0.0.1/32"] ["10.0.0.1"]).1 = .ok () :=
  (verifyCIDR_only_role_list_normalized _ _ (by decide) (by decide)).mpr (by decide)

/-! ## Claim C7 -/

/-- Claim C7: `verifyCIDRRoleSecretIDSubset` accepts whenever either list is
empty; with both lists non-empty, a non-subset outcome (or a block that fails
to resolve) produces an error listing both CIDR sets. -/
theorem verifyCIDR_empty_accepts_nonsubset_fails (secretIDCIDRs roleBoundCIDRList : List String) :
    (secretIDCIDRs = [] →
      verifyCIDRRoleSecretIDSubset secretIDCIDRs roleBoundCIDRList = (.ok (), roleBoundCIDRList))
  ∧ (roleBoundCIDRList = [] →
      verifyCIDRRoleSecretIDSubset secretIDCIDRs roleBoundCIDRList = (.ok (), roleBoundCIDRList))
  ∧ (∀ rl, rl = roleBoundCIDRList.map normalizeRoleCIDR →
      secretIDCIDRs ≠ [] → roleBoundCIDRList ≠ [] →
      (subsetBlocks rl secretIDCIDRs = .ok false →
        (verifyCIDRRoleSecretIDSubset secretIDCIDRs roleBoundCIDRList).1 =
          .error (cidrSubsetFailMsg rl secretIDCIDRs none))
      ∧ (∀ e, subsetBlocks rl secretIDCIDRs = .error e →
        (verifyCIDRRoleSecretIDSubset secretIDCIDRs roleBoundCIDRList).1 =
          .error (cidrSubsetFailMsg rl secretIDCIDRs (some e)))) := by
  refine ⟨fun h0 => ?_, fun h0 => ?_, fun rl hrl hs hr => ?_⟩
  · subst h0
    unfold verifyCIDRRoleSecretIDSubset
    simp
  · subst h0
    unfold verifyCIDRRoleSecretIDSubset
    by_cases hs0 : secretIDCIDRs.length ≠ 0 <;> simp [hs0]
  · subst hrl
    have hs' : secretIDCIDRs.length ≠ 0 := by simpa [List.length_eq_zero] using hs
    have hr' : roleBoundCIDRList.length ≠ 0 := by simpa [List.length_eq_zero] using hr
    constructor
    · intro hsb
      unfold verifyCIDRRoleSecretIDSubset
      rw [if_pos hs', if_pos hr']
      dsimp only
      simp [hsb]
    · intro e hsb
      unfold verifyCIDRRoleSecretIDSubset
      rw [if_pos hs', if_pos hr']
      dsimp only
      simp [hsb]

/-- Witness for C7: both empty-list acceptances and a concrete non-subset
failure carrying both CIDR sets in the message. -/
theorem verifyCIDR_empty_accepts_nonsubset_fails_witness :
    verifyCIDRRoleSecretIDSubset [] ["10.0.0.0/8"] = (.ok (), ["10.0.0.0/8"])
  ∧ verifyCIDRRoleSecretIDSubset ["192.168.1.0/24"] [] = (.ok (), [])
  ∧ (verifyCIDRRoleSecretIDSubset ["192.168.1.0/24"] ["10.0.0.0/24"]).1 =
      .error (cidrSubsetFailMsg ["10.0.0.0/24"] ["192.168.1.0/24"] none) :=
  ⟨(verifyCIDR_empty_accepts_nonsubset_fails [] ["10.0.0.0/8"]).1 rfl,
   (verifyCIDR_empty_accepts_nonsubset_fails ["192.168.1.0/24"] []).2.1 rfl,
   ((verifyCIDR_empty_accepts_nonsubset_fails ["192.168.1.0/24"] ["10.0.0.0/24"]).2.2
      ["10.0.0.0/24"] (by decide) (by decide) (by decide)).1 (by decide)⟩

/-! ## Association-list and store lemmas -/

/-- Looking up the key just set yields the new value. -/
theorem assocGet_set_self {α : Type} (l : List (String × α)) (k : String) (v : α) :
    assocGet (assocSet l k v) k = some v := by
  simp [assocGet, assocSet]

/-- Removing a key does not change lookups of other keys. -/
theorem assocGet_del_ne {α : Type} (l : List (String × α)) (k k' : String) (h : k' ≠ k) :
    assocGet (assocDel l k) k' = assocGet l k' := by
  induction l with
  | nil => rfl
  | cons a l ih =>
    have hkk' : ¬(k = k') := fun hh => h hh.symm
    by_cases ha : a.1 = k
    · simp [assocDel, assocGet, ha, hkk', ih]
    · by_cases hk' : a.1 = k'
      · simp [assocDel, assocGet, ha, hk', h]
      · simp [assocDel, assocGet, ha, hk', ih]

/-- Looking up a key just removed yields nothing. -/
theorem assocGet_del_self {α : Type} (l : List (String × α)) (k : String) :
    assocGet (assocDel l k) k = none := by
  induction l with
  | nil => rfl
  | cons a l ih =>
    by_cases ha : a.1 = k
    · simp [assocDel, assocGet, ha, ih]
    · simp [assocDel, assocGet, ha, ih]

/-- Setting a key does not change lookups of other keys. -/
theorem assocGet_set_ne {α : Type} (l : List (String × α)) (k k' : String) (v : α)
    (h : k' ≠ k) : assocGet (assocSet l k v) k' = assocGet l k' := by
  have hk : ¬(k = k') := fun hh => h hh.symm
  simp [assocSet, assocGet, hk, assocGet_del_ne l k k' h]

/-- A put on a key that is not configured to fail succeeds, with the listed
effect on the store. -/
theorem putSecret_ok (st : Store) (k : String) (v : SecretIDStorageEntry)
    (hp : k ∉ st.putFails) :
    st.putSecret k v = .ok { st with
      secrets := assocSet st.secrets k v,
      log := st.log ++ [.putSecret k] } := by
  simp [Store.putSecret, hp]

/-- A put of an accessor entry on a non-failing key succeeds. -/
theorem putAccessor_ok (st : Store) (k : String) (v : SecretIDAccessorStorageEntry)
    (hp : k ∉ st.putFails) :
    st.putAccessor k v = .ok { st with
      accessors := assocSet st.accessors k v,
      log := st.log ++ [.putAccessor k] } := by
  simp [Store.putAccessor, hp]

/-- A put of an accessor entry on a failing key fails. -/
theorem putAccessor_error (st : Store) (k : String) (v : SecretIDAccessorStorageEntry)
    (hp : k ∈ st.putFails) :
    st.putAccessor k v = .error "storage put failed" := by
  simp [Store.putAccessor, hp]

/-- A delete on a non-failing key succeeds, removing the key. -/
theorem deleteSecret_ok (st : Store) (k : String)
    (hd : k ∉ st.deleteFails) :
    st.deleteSecret k = .ok { st with secrets := assocDel st.secrets k } := by
  simp [Store.deleteSecret, hd]

/-- A delete on a failing key fails. -/
theorem deleteSecret_error (st : Store) (k : String)
    (hd : k ∈ st.deleteFails) :
    st.deleteSecret k = .error "storage delete failed" := by
  simp [Store.deleteSecret, hd]

/-! ## Read-path lemmas -/

/-- Reading an absent SecretID entry returns `none` and leaves the store
untouched. -/
theorem nonLocked_get_none (st : Store) (pfx rh sh : String)
    (hsh : sh ≠ "") (hrh : rh ≠ "")
    (hget : st.getSecret (secretIDEntryIndex pfx rh sh) = none) :
    nonLockedSecretIDStorageEntry st pfx rh sh = (.ok none, st) := by
  unfold nonLockedSecretIDStorageEntry
  rw [if_neg hsh, if_neg hrh, hget]

/-- Reading a present SecretID entry returns the reconciled entry; when the
reconciliation changed it, the entry is rewritten on the same read path. -/
theorem nonLocked_get_some (st : Store) (pfx rh sh : String) (e : SecretIDStorageEntry)
    (hsh : sh ≠ "") (hrh : rh ≠ "") (hpfx : pfx ≠ "")
    (hget : st.getSecret (secretIDEntryIndex pfx rh sh) = some e)
    (hp : secretIDEntryIndex pfx rh sh ∉ st.putFails) :
    nonLockedSecretIDStorageEntry st pfx rh sh =
      (.ok (some (reconcileNumUses e).1),
       if (reconcileNumUses e).2 then
         { st with
           secrets := assocSet st.secrets (secretIDEntryIndex pfx rh sh) (reconcileNumUses e).1,
           log := st.log ++ [.putSecret (secretIDEntryIndex pfx rh sh)] }
       else st) := by
  unfold nonLockedSecretIDStorageEntry
  rw [if_neg hsh, if_neg hrh, hget]
  dsimp only
  have hset : nonLockedSetSecretIDStorageEntry st pfx rh sh (reconcileNumUses e).1 =
      .ok { st with
        secrets := assocSet st.secrets (secretIDEntryIndex pfx rh sh) (reconcileNumUses e).1,
        log := st.log ++ [.putSecret (secretIDEntryIndex pfx rh sh)] } := by
    unfold nonLockedSetSecretIDStorageEntry
    rw [if_neg hpfx, if_neg hsh, if_neg hrh]
    exact putSecret_ok st _ _ hp
  by_cases hb : (reconcileNumUses e).2
  · rw [if_pos hb, hset, if_pos hb]
  · rw [if_neg hb, if_neg hb]

/-- Characterization of the deprecated-use-count reconciliation when the
deprecated field is non-zero and disagrees with the canonical field. -/
theorem reconcileNumUses_spec (e : SecretIDStorageEntry)
    (hd : e.SecretIDNumUsesDeprecated ≠ 0)
    (hne : e.SecretIDNumUsesDeprecated ≠ e.SecretIDNumUses) :
    (reconcileNumUses e).2 = true
  ∧ (reconcileNumUses e).1.SecretIDNumUses =
      (if e.SecretIDNumUses = 0 then e.SecretIDNumUsesDeprecated
       else min e.SecretIDNumUsesDeprecated e.SecretIDNumUses)
  ∧ (reconcileNumUses e).1.SecretIDNumUsesDeprecated = (reconcileNumUses e).1.SecretIDNumUses := by
  unfold reconcileNumUses
  rw [if_pos hd]
  dsimp only
  by_cases h0 : e.SecretIDNumUses = 0 ∨ e.SecretIDNumUsesDeprecated < e.SecretIDNumUses
  · rw [if_pos h0]
    dsimp only
    rw [if_neg (by omega)]
    refine ⟨rfl, ?_, rfl⟩
    dsimp only
    rw [min_def]
    split_ifs <;> omega
  · rw [if_neg h0]
    dsimp only
    rw [if_pos (by omega)]
    refine ⟨rfl, ?_, rfl⟩
    dsimp only
    rw [min_def]
    split_ifs <;> omega

/-! ## Claim C8 -/

/-- Claim C8: on a read through `nonLockedSecretIDStorageEntry` where the
stored deprecated use count is non-zero and differs from the canonical one,
the returned entry carries both fields equal to the smaller non-zero of the
two stored values (the deprecated value when the canonical one is zero), and
the reconciled entry is written back on the same read path. -/
theorem nonLockedRead_reconciles_and_persists (st : Store) (pfx rh sh : String)
    (e : SecretIDStorageEntry)
    (hsh : sh ≠ "") (hrh : rh ≠ "") (hpfx : pfx ≠ "")
    (hget : st.getSecret (secretIDEntryIndex pfx rh sh) = some e)
    (hp : secretIDEntryIndex pfx rh sh ∉ st.putFails)
    (hd : e.SecretIDNumUsesDeprecated ≠ 0)
    (hne : e.SecretIDNumUsesDeprecated ≠ e.SecretIDNumUses) :
    (nonLockedSecretIDStorageEntry st pfx rh sh).1 = .ok (some (reconcileNumUses e).1)
  ∧ (reconcileNumUses e).1.SecretIDNumUses =
      (if e.SecretIDNumUses = 0 then e.SecretIDNumUsesDeprecated
       else min e.SecretIDNumUsesDeprecated e.SecretIDNumUses)
  ∧ (reconcileNumUses e).1.SecretIDNumUsesDeprecated = (reconcileNumUses e).1.SecretIDNumUses
  ∧ (nonLockedSecretIDStorageEntry st pfx rh sh).2.getSecret (secretIDEntryIndex pfx rh sh)
      = some (reconcileNumUses e).1
  ∧ (nonLockedSecretIDStorageEntry st pfx rh sh).2.log
      = st.log ++ [.putSecret (secretIDEntryIndex pfx rh sh)] := by
  obtain ⟨hb, hval, heq⟩ := reconcileNumUses_spec e hd hne
  rw [nonLocked_get_some st pfx rh sh e hsh hrh hpfx hget hp, hb]
  refine ⟨rfl, hval, heq, ?_, rfl⟩
  simp only [if_true]
  exact assocGet_set_self _ _ _

/-- Witness for C8 on a concrete store: canonical count 5, deprecated count 3
reconcile to 3 and are persisted. -/
theorem nonLockedRead_reconciles_and_persists_witness :
    (nonLockedSecretIDStorageEntry
        { secrets := [("p/rh/sh",
            { SecretIDNumUses := 5, SecretIDNumUsesDeprecated := 3 })] }
        "p/" "rh" "sh").1 =
      .ok (some { SecretIDNumUses := 3, SecretIDNumUsesDeprecated := 3 })
  ∧ (nonLockedSecretIDStorageEntry
        { secrets := [("p/rh/sh",
            { SecretIDNumUses := 5, SecretIDNumUsesDeprecated := 3 })] }
        "p/" "rh" "sh").2.getSecret "p/rh/sh" =
      some { SecretIDNumUses := 3, SecretIDNumUsesDeprecated := 3 } := by
  have h := nonLockedRead_reconciles_and_persists
    { secrets := [("p/rh/sh", { SecretIDNumUses := 5, SecretIDNumUsesDeprecated := 3 })] }
    "p/" "rh" "sh" { SecretIDNumUses := 5, SecretIDNumUsesDeprecated := 3 }
    (by decide) (by decide) (by decide) (by decide) (by decide) (by decide) (by decide)
  refine ⟨?_, ?_⟩
  · rw [h.1]; decide
  · have h4 := h.2.2.2.1
    rw [show secretIDEntryIndex "p/" "rh" "sh" = "p/rh/sh" from rfl] at h4
    rw [h4]; decide

/-- When the reconciliation reports no rewrite, it also changed nothing. -/
theorem reconcileNumUses_no_persist (e : SecretIDStorageEntry)
    (hb : (reconcileNumUses e).2 = false) : (reconcileNumUses e).1 = e := by
  unfold reconcileNumUses at hb ⊢
  by_cases h1 : e.SecretIDNumUsesDeprecated ≠ 0
  · rw [if_pos h1] at hb ⊢
    dsimp only at hb ⊢
    by_cases h2 : e.SecretIDNumUses = 0 ∨ e.SecretIDNumUsesDeprecated < e.SecretIDNumUses
    · rw [if_pos h2] at hb ⊢
      dsimp only at hb ⊢
      rw [if_neg (lt_irrefl e.SecretIDNumUsesDeprecated)] at hb
      simp at hb
    · rw [if_neg h2] at hb ⊢
      dsimp only at hb ⊢
      by_cases h3 : e.SecretIDNumUses < e.SecretIDNumUsesDeprecated
      · rw [if_pos h3] at hb
        simp at hb
      · rw [if_neg h3]
  · rw [if_neg h1]

/-- Properties of the store after the read path of
`nonLockedSecretIDStorageEntry` on a present entry: accessors untouched,
other keys untouched, and the key now holds the reconciled entry. -/
theorem afterRead_props (st st' : Store) (key : String) (e : SecretIDStorageEntry)
    (hget : st.getSecret key = some e)
    (hst' : st' = if (reconcileNumUses e).2 then
        { st with secrets := assocSet st.secrets key (reconcileNumUses e).1,
                  log := st.log ++ [.putSecret key] }
      else st) :
    st'.accessors = st.accessors
  ∧ (∀ k, k ≠ key → st'.getSecret k = st.getSecret k)
  ∧ st'.getSecret key = some (reconcileNumUses e).1 := by
  subst hst'
  by_cases hb : (reconcileNumUses e).2
  · rw [if_pos hb]
    refine ⟨rfl, fun k hk => ?_, ?_⟩
    · exact assocGet_set_ne _ _ _ _ hk
    · exact assocGet_set_self _ _ _
  · rw [if_neg hb]
    have h1 : (reconcileNumUses e).1 = e :=
      reconcileNumUses_no_persist e (by simpa using hb)
    exact ⟨rfl, fun k hk => rfl, by rw [h1]; exact hget⟩

/-! ## Claim C1 -/

/-- Counterexample to claim C1 as stated: with a pre-existing entry whose
deprecated use count (1) disagrees with the canonical one (2),
`registerSecretIDEntry` does return "SecretID is already registered", but it
also performs a storage write — the deprecated-field reconciliation rewrites
the existing primary entry on the read path, as the write log records. -/
theorem register_already_registered_counterexample :
    registerSecretIDEntry 0 0 "uuid-1"
      { secrets := [("secret_id/784b78ea2d08c0eb4f824623bbe61459012ceb7a86f5c36f709b16b385f75c53/a754f4059b0a4c0a4abf6568ea186538b7f2dc236ba3cdfd92492e37f066fe8d",
          { SecretIDNumUses := 2, SecretIDNumUsesDeprecated := 1 })] }
      "r" "s" "k" "secret_id/" {} =
    (.error "SecretID is already registered",
     { secrets := [("secret_id/784b78ea2d08c0eb4f824623bbe61459012ceb7a86f5c36f709b16b385f75c53/a754f4059b0a4c0a4abf6568ea186538b7f2dc236ba3cdfd92492e37f066fe8d",
          { SecretIDNumUses := 1, SecretIDNumUsesDeprecated := 1 })],
       log := [.putSecret "secret_id/784b78ea2d08c0eb4f824623bbe61459012ceb7a86f5c36f709b16b385f75c53/a754f4059b0a4c0a4abf6568ea186538b7f2dc236ba3cdfd92492e37f066fe8d"] }) := by
  decide

/-- Claim C1 (amended): whenever a credential entry already exists at
`prefix + roleNameHMAC + "/" + secretIDHMAC`, `registerSecretIDEntry` — and
likewise the re-check running under the write lock, on whatever storage state
it then sees — returns the error "SecretID is already registered" and creates
nothing: the accessor index is untouched, every other key is untouched, and
the pre-existing primary entry remains (possibly rewritten in place by
the deprecated-use-count reconciliation of the read path). -/
theorem register_already_registered (sysMax now : Int) (uuid : String) (st : Store)
    (rn sid hk pfx sh rh : String) (tmpl e : SecretIDStorageEntry)
    (hsh : createHMAC hk sid = .ok sh) (hrh : createHMAC hk rn = .ok rh)
    (hshne : sh ≠ "") (hrhne : rh ≠ "") (hpfx : pfx ≠ "")
    (hget : st.getSecret (secretIDEntryIndex pfx rh sh) = some e)
    (hp : secretIDEntryIndex pfx rh sh ∉ st.putFails) :
    ((registerSecretIDEntry sysMax now uuid st rn sid hk pfx tmpl).1 =
        .error "SecretID is already registered"
      ∧ (registerSecretIDEntry sysMax now uuid st rn sid hk pfx tmpl).2.accessors = st.accessors
      ∧ (∀ k, k ≠ secretIDEntryIndex pfx rh sh →
          (registerSecretIDEntry sysMax now uuid st rn sid hk pfx tmpl).2.getSecret k =
            st.getSecret k)
      ∧ (registerSecretIDEntry sysMax now uuid st rn sid hk pfx tmpl).2.getSecret
            (secretIDEntryIndex pfx rh sh) = some (reconcileNumUses e).1)
  ∧ ((registerSecretIDEntryLocked sysMax now uuid st pfx rh sh tmpl).1 =
        .error "SecretID is already registered"
      ∧ (registerSecretIDEntryLocked sysMax now uuid st pfx rh sh tmpl).2.accessors =
          st.accessors
      ∧ (∀ k, k ≠ secretIDEntryIndex pfx rh sh →
          (registerSecretIDEntryLocked sysMax now uuid st pfx rh sh tmpl).2.getSecret k =
            st.getSecret k)
      ∧ (registerSecretIDEntryLocked sysMax now uuid st pfx rh sh tmpl).2.getSecret
            (secretIDEntryIndex pfx rh sh) = some (reconcileNumUses e).1) := by
  have hro := nonLocked_get_some st pfx rh sh e hshne hrhne hpfx hget hp
  have hprops := afterRead_props st _ (secretIDEntryIndex pfx rh sh) e hget rfl
  have hlocked : registerSecretIDEntryLocked sysMax now uuid st pfx rh sh tmpl =
      (.error "SecretID is already registered",
       if (reconcileNumUses e).2 then
         { st with
           secrets := assocSet st.secrets (secretIDEntryIndex pfx rh sh) (reconcileNumUses e).1,
           log := st.log ++ [.putSecret (secretIDEntryIndex pfx rh sh)] }
       else st) := by
    unfold registerSecretIDEntryLocked
    rw [hro]
  have hreg : registerSecretIDEntry sysMax now uuid st rn sid hk pfx tmpl =
      (.error "SecretID is already registered",
       if (reconcileNumUses e).2 then
         { st with
           secrets := assocSet st.secrets (secretIDEntryIndex pfx rh sh) (reconcileNumUses e).1,
           log := st.log ++ [.putSecret (secretIDEntryIndex pfx rh sh)] }
       else st) := by
    unfold registerSecretIDEntry
    simp only [hsh, hrh]
    rw [hro]
  rw [hreg, hlocked]
  exact ⟨⟨rfl, hprops.1, hprops.2.1, hprops.2.2⟩, ⟨rfl, hprops.1, hprops.2.1, hprops.2.2⟩⟩

/-- Witness for the amended C1: a concrete store with an existing entry whose
counts disagree; the registration is rejected and the entry remains (with the
counts reconciled). -/
theorem register_already_registered_witness :
    (registerSecretIDEntry 0 0 "uuid-1"
        { secrets := [("secret_id/784b78ea2d08c0eb4f824623bbe61459012ceb7a86f5c36f709b16b385f75c53/a754f4059b0a4c0a4abf6568ea186538b7f2dc236ba3cdfd92492e37f066fe8d",
            { SecretIDNumUses := 2, SecretIDNumUsesDeprecated := 1 })] }
        "r" "s" "k" "secret_id/" {}).1 = .error "SecretID is already registered"
  ∧ (registerSecretIDEntry 0 0 "uuid-1"
        { secrets := [("secret_id/784b78ea2d08c0eb4f824623bbe61459012ceb7a86f5c36f709b16b385f75c53/a754f4059b0a4c0a4abf6568ea186538b7f2dc236ba3cdfd92492e37f066fe8d",
            { SecretIDNumUses := 2, SecretIDNumUsesDeprecated := 1 })] }
        "r" "s" "k" "secret_id/" {}).2.accessors = [] := by
  have h := register_already_registered 0 0 "uuid-1"
    { secrets := [("secret_id/784b78ea2d08c0eb4f824623bbe61459012ceb7a86f5c36f709b16b385f75c53/a754f4059b0a4c0a4abf6568ea186538b7f2dc236ba3cdfd92492e37f066fe8d",
        { SecretIDNumUses := 2, SecretIDNumUsesDeprecated := 1 })] }
    "r" "s" "k" "secret_id/"
    "a754f4059b0a4c0a4abf6568ea186538b7f2dc236ba3cdfd92492e37f066fe8d"
    "784b78ea2d08c0eb4f824623bbe61459012ceb7a86f5c36f709b16b385f75c53"
    {} { SecretIDNumUses := 2, SecretIDNumUsesDeprecated := 1 }
    (by decide) (by decide) (by decide) (by decide) (by decide) (by decide) (by decide)
  exact ⟨h.1.1, h.1.2.1⟩

/-- With no pre-existing entry, `registerSecretIDEntry` reduces to its
write-locked tail. -/
theorem register_to_locked (sysMax now : Int) (uuid : String) (st : Store)
    (rn sid hk pfx sh rh : String) (tmpl : SecretIDStorageEntry)
    (hsh : createHMAC hk sid = .ok sh) (hrh : createHMAC hk rn = .ok rh)
    (hshne : sh ≠ "") (hrhne : rh ≠ "")
    (hnone : st.getSecret (secretIDEntryIndex pfx rh sh) = none) :
    registerSecretIDEntry sysMax now uuid st rn sid hk pfx tmpl =
      registerSecretIDEntryLocked sysMax now uuid st pfx rh sh tmpl := by
  unfold registerSecretIDEntry
  simp only [hsh, hrh]
  rw [nonLocked_get_none st pfx rh sh hshne hrhne hnone]

/-- The write-locked tail on a still-absent entry with working storage: the
accessor entry is written, then the primary entry, in that order. -/
theorem registerLocked_success (sysMax now : Int) (uuid : String) (st : Store)
    (pfx rh sh : String) (tmpl : SecretIDStorageEntry)
    (hshne : sh ≠ "") (hrhne : rh ≠ "") (hpfx : pfx ≠ "")
    (hnone : st.getSecret (secretIDEntryIndex pfx rh sh) = none)
    (hak : accessorEntryIndex pfx uuid ∉ st.putFails)
    (hpk : secretIDEntryIndex pfx rh sh ∉ st.putFails) :
    registerSecretIDEntryLocked sysMax now uuid st pfx rh sh tmpl =
      (.ok (regFinalEntry sysMax now uuid tmpl),
       { st with
         accessors := assocSet st.accessors (accessorEntryIndex pfx uuid)
           { SecretIDHMAC := sh },
         secrets := assocSet st.secrets (secretIDEntryIndex pfx rh sh)
           (regFinalEntry sysMax now uuid tmpl),
         log := st.log ++ [.putAccessor (accessorEntryIndex pfx uuid),
                           .putSecret (secretIDEntryIndex pfx rh sh)] }) := by
  have hak' : st.putFails.contains (accessorEntryIndex pfx uuid) = false := by
    simpa using hak
  have hpk' : st.putFails.contains (secretIDEntryIndex pfx rh sh) = false := by
    simpa using hpk
  unfold registerSecretIDEntryLocked
  rw [nonLocked_get_none st pfx rh sh hshne hrhne hnone]
  unfold createSecretIDAccessorEntry nonLockedSetSecretIDStorageEntry
  simp [Store.putAccessor, Store.putSecret, hak, hpk, hak', hpk', hpfx, hshne, hrhne,
    regFinalEntry]

/-- The write-locked tail when the accessor index write fails: the error is
surfaced and the store is left exactly as it was — in particular no primary
entry is written. -/
theorem registerLocked_accessor_fail (sysMax now : Int) (uuid : String) (st : Store)
    (pfx rh sh : String) (tmpl : SecretIDStorageEntry)
    (hshne : sh ≠ "") (hrhne : rh ≠ "")
    (hnone : st.getSecret (secretIDEntryIndex pfx rh sh) = none)
    (hak : accessorEntryIndex pfx uuid ∈ st.putFails) :
    registerSecretIDEntryLocked sysMax now uuid st pfx rh sh tmpl =
      (.error "failed to persist accessor index entry: storage put failed", st) := by
  unfold registerSecretIDEntryLocked
  rw [nonLocked_get_none st pfx rh sh hshne hrhne hnone]
  unfold createSecretIDAccessorEntry
  simp [Store.putAccessor, hak]

/-- Timestamp and expiration fields of the persisted entry. -/
theorem regFinalEntry_spec (sysMax now : Int) (uuid : String)
    (tmpl : SecretIDStorageEntry) (hexp : tmpl.ExpirationTime = 0) :
    (regFinalEntry sysMax now uuid tmpl).CreationTime = now
  ∧ (regFinalEntry sysMax now uuid tmpl).LastUpdatedTime = now
  ∧ (regFinalEntry sysMax now uuid tmpl).ExpirationTime =
      (if deriveSecretIDTTL sysMax tmpl.SecretIDTTL = 0 then 0
       else now + deriveSecretIDTTL sysMax tmpl.SecretIDTTL) := by
  unfold regFinalEntry
  dsimp only
  by_cases h : deriveSecretIDTTL sysMax tmpl.SecretIDTTL ≠ 0
  · rw [if_pos h, if_neg h]
    exact ⟨rfl, rfl, rfl⟩
  · rw [if_neg h]
    push_neg at h
    rw [if_pos h]
    exact ⟨rfl, rfl, hexp⟩

/-! ## Claim C2 -/

/-- Claim C2: in every successful run of `registerSecretIDEntry` the accessor
index write happens strictly before the primary credential write (the write
log records exactly those two writes, in that order); and when the accessor
write fails, the error is returned and the primary entry is never written —
the store is unchanged. -/
theorem register_accessor_before_primary (sysMax now : Int) (uuid : String) (st : Store)
    (rn sid hk pfx sh rh : String) (tmpl : SecretIDStorageEntry)
    (hsh : createHMAC hk sid = .ok sh) (hrh : createHMAC hk rn = .ok rh)
    (hshne : sh ≠ "") (hrhne : rh ≠ "") (hpfx : pfx ≠ "")
    (hnone : st.getSecret (secretIDEntryIndex pfx rh sh) = none) :
    (accessorEntryIndex pfx uuid ∉ st.putFails →
     secretIDEntryIndex pfx rh sh ∉ st.putFails →
      (registerSecretIDEntry sysMax now uuid st rn sid hk pfx tmpl).1 =
          .ok (regFinalEntry sysMax now uuid tmpl)
      ∧ (registerSecretIDEntry sysMax now uuid st rn sid hk pfx tmpl).2.log =
          st.log ++ [.putAccessor (accessorEntryIndex pfx uuid),
                     .putSecret (secretIDEntryIndex pfx rh sh)])
  ∧ (accessorEntryIndex pfx uuid ∈ st.putFails →
      (registerSecretIDEntry sysMax now uuid st rn sid hk pfx tmpl).1 =
        .error "failed to persist accessor index entry: storage put failed"
      ∧ (registerSecretIDEntry sysMax now uuid st rn sid hk pfx tmpl).2 = st) := by
  rw [register_to_locked sysMax now uuid st rn sid hk pfx sh rh tmpl hsh hrh hshne hrhne hnone]
  constructor
  · intro hak hpk
    rw [registerLocked_success sysMax now uuid st pfx rh sh tmpl hshne hrhne hpfx hnone hak hpk]
    exact ⟨rfl, rfl⟩
  · intro hak
    rw [registerLocked_accessor_fail sysMax now uuid st pfx rh sh tmpl hshne hrhne hnone hak]
    exact ⟨rfl, rfl⟩

/-- Witness for C2: on an empty store the log shows the accessor write then
the primary write; with the accessor key set to fail, the run errors and the
store is unchanged. -/
theorem register_accessor_before_primary_witness :
    (registerSecretIDEntry 100 7 "uuid-1" {} "r" "s" "k" "secret_id/" {}).2.log =
      [.putAccessor (accessorEntryIndex "secret_id/" "uuid-1"),
       .putSecret (secretIDEntryIndex "secret_id/"
         "784b78ea2d08c0eb4f824623bbe61459012ceb7a86f5c36f709b16b385f75c53"
         "a754f4059b0a4c0a4abf6568ea186538b7f2dc236ba3cdfd92492e37f066fe8d")]
  ∧ (registerSecretIDEntry 100 7 "uuid-1"
        { putFails := [accessorEntryIndex "secret_id/" "uuid-1"] }
        "r" "s" "k" "secret_id/" {}).1 =
      .error "failed to persist accessor index entry: storage put failed" := by
  have h1 := (register_accessor_before_primary 100 7 "uuid-1" {} "r" "s" "k" "secret_id/"
    "a754f4059b0a4c0a4abf6568ea186538b7f2dc236ba3cdfd92492e37f066fe8d"
    "784b78ea2d08c0eb4f824623bbe61459012ceb7a86f5c36f709b16b385f75c53" {}
    (by decide) (by decide) (by decide) (by decide) (by decide) rfl).1
    (by decide) (by decide)
  have h2 := (register_accessor_before_primary 100 7 "uuid-1"
    { putFails := [accessorEntryIndex "secret_id/" "uuid-1"] } "r" "s" "k" "secret_id/"
    "a754f4059b0a4c0a4abf6568ea186538b7f2dc236ba3cdfd92492e37f066fe8d"
    "784b78ea2d08c0eb4f824623bbe61459012ceb7a86f5c36f709b16b385f75c53" {}
    (by decide) (by decide) (by decide) (by decide) (by decide) rfl).2
    (by decide)
  exact ⟨by simpa using h1.2, h2.1⟩

/-! ## Claim C9 -/

/-- Claim C9: on a successful registration the stored entry's expiration time
is left at the zero value when the effective TTL (`deriveSecretIDTTL` of the
requested TTL) is zero, and equals the creation timestamp plus the effective
TTL otherwise. -/
theorem register_expiration_policy (sysMax now : Int) (uuid : String) (st : Store)
    (rn sid hk pfx sh rh : String) (tmpl : SecretIDStorageEntry)
    (hsh : createHMAC hk sid = .ok sh) (hrh : createHMAC hk rn = .ok rh)
    (hshne : sh ≠ "") (hrhne : rh ≠ "") (hpfx : pfx ≠ "")
    (hnone : st.getSecret (secretIDEntryIndex pfx rh sh) = none)
    (hak : accessorEntryIndex pfx uuid ∉ st.putFails)
    (hpk : secretIDEntryIndex pfx rh sh ∉ st.putFails)
    (hexp : tmpl.ExpirationTime = 0) :
    (registerSecretIDEntry sysMax now uuid st rn sid hk pfx tmpl).1 =
        .ok (regFinalEntry sysMax now uuid tmpl)
  ∧ (registerSecretIDEntry sysMax now uuid st rn sid hk pfx tmpl).2.getSecret
        (secretIDEntryIndex pfx rh sh) = some (regFinalEntry sysMax now uuid tmpl)
  ∧ (regFinalEntry sysMax now uuid tmpl).CreationTime = now
  ∧ (regFinalEntry sysMax now uuid tmpl).ExpirationTime =
      (if deriveSecretIDTTL sysMax tmpl.SecretIDTTL = 0 then 0
       else now + deriveSecretIDTTL sysMax tmpl.SecretIDTTL) := by
  rw [register_to_locked sysMax now uuid st rn sid hk pfx sh rh tmpl hsh hrh hshne hrhne hnone]
  rw [registerLocked_success sysMax now uuid st pfx rh sh tmpl hshne hrhne hpfx hnone hak hpk]
  obtain ⟨hc, hl, he⟩ := regFinalEntry_spec sysMax now uuid tmpl hexp
  exact ⟨rfl, assocGet_set_self _ _ _, hc, he⟩

/-- Witness for C9: a requested TTL of 0 stores a zero expiration; a requested
TTL of 5 at time 7 stores expiration 12. -/
theorem register_expiration_policy_witness :
    (regFinalEntry 100 7 "uuid-1" {}).ExpirationTime = 0
  ∧ (regFinalEntry 100 7 "uuid-1" { SecretIDTTL := 5 }).ExpirationTime = 12 := by
  have h1 := register_expiration_policy 100 7 "uuid-1" {} "r" "s" "k" "secret_id/"
    "a754f4059b0a4c0a4abf6568ea186538b7f2dc236ba3cdfd92492e37f066fe8d"
    "784b78ea2d08c0eb4f824623bbe61459012ceb7a86f5c36f709b16b385f75c53" {}
    (by decide) (by decide) (by decide) (by decide) (by decide) rfl
    (by decide) (by decide) rfl
  have h2 := register_expiration_policy 100 7 "uuid-1" {} "r" "s" "k" "secret_id/"
    "a754f4059b0a4c0a4abf6568ea186538b7f2dc236ba3cdfd92492e37f066fe8d"
    "784b78ea2d08c0eb4f824623bbe61459012ceb7a86f5c36f709b16b385f75c53"
    { SecretIDTTL := 5 }
    (by decide) (by decide) (by decide) (by decide) (by decide) rfl
    (by decide) (by decide) rfl
  constructor
  · rw [h1.2.2.2]; decide
  · rw [h2.2.2.2]; decide

/-- The flush loop stops at the first failing delete: everything before the
failing key is deleted, the failing key's error is returned naming that key,
and nothing else is touched. -/
theorem flushLoop_spec (p : String) (hs1 : List String) (kbad : String) (hs2 : List String) :
    ∀ st : Store,
    (∀ h ∈ hs1, (p ++ h) ∉ st.deleteFails) →
    (p ++ kbad) ∈ st.deleteFails →
    (flushLoop st p (hs1 ++ kbad :: hs2)).1 =
        .error ("error deleting SecretID \"" ++ kbad ++ "\" from storage: storage delete failed")
    ∧ (∀ h ∈ hs1, (flushLoop st p (hs1 ++ kbad :: hs2)).2.getSecret (p ++ h) = none)
    ∧ (∀ k, (∀ h ∈ hs1, k ≠ p ++ h) →
        (flushLoop st p (hs1 ++ kbad :: hs2)).2.getSecret k = st.getSecret k) := by
  induction hs1 with
  | nil =>
    intro st hok hbad
    simp only [List.nil_append]
    unfold flushLoop
    rw [deleteSecret_error st _ hbad]
    refine ⟨?_, by simp, fun k _ => rfl⟩
    show Except.error ("error deleting SecretID \"" ++ kbad ++ "\" from storage: " ++
      "storage delete failed") =
      Except.error ("error deleting SecretID \"" ++ kbad ++ "\" from storage: storage delete failed")
    simp [String.append_assoc]
  | cons h0 hs1 ih =>
    intro st hok hbad
    have h0ok : (p ++ h0) ∉ st.deleteFails := hok h0 (by simp)
    simp only [List.cons_append]
    unfold flushLoop
    rw [deleteSecret_ok st _ h0ok]
    dsimp only
    obtain ⟨e1, e2, e3⟩ := ih { st with secrets := assocDel st.secrets (p ++ h0) }
      (fun h hm => hok h (by simp [hm])) hbad
    refine ⟨e1, ?_, ?_⟩
    · intro h hm
      rcases List.mem_cons.mp hm with rfl | hm'
      · by_cases hin : ∃ h' ∈ hs1, p ++ h = p ++ h'
        · obtain ⟨h', hh', heq⟩ := hin
          have hres := e2 h' hh'
          rwa [← heq] at hres
        · push_neg at hin
          rw [e3 _ hin]
          exact assocGet_del_self _ _
      · exact e2 h hm'
    · intro k hk
      rw [e3 k (fun h' hh' => hk h' (by simp [hh']))]
      exact assocGet_del_ne _ _ _ (hk h0 (by simp))

/-! ## Claim C5 -/

/-- Counterexample to claim C5 as stated: with three stored SecretIDs of a
role and the second one's delete failing, `flushRoleSecrets` returns only an
error naming the failing entry — its Go signature is a bare `error` and no
count of deleted entries is part of the return value; the first entry stays
deleted, the rest remain. -/
theorem flush_returns_no_count_counterexample :
    flushRoleSecrets
      { secrets :=
          [("secret_id/784b78ea2d08c0eb4f824623bbe61459012ceb7a86f5c36f709b16b385f75c53/h1", {}),
           ("secret_id/784b78ea2d08c0eb4f824623bbe61459012ceb7a86f5c36f709b16b385f75c53/h2", {}),
           ("secret_id/784b78ea2d08c0eb4f824623bbe61459012ceb7a86f5c36f709b16b385f75c53/h3", {})],
        deleteFails :=
          ["secret_id/784b78ea2d08c0eb4f824623bbe61459012ceb7a86f5c36f709b16b385f75c53/h2"] }
      "r" "k" "secret_id/" =
    (.error "error deleting SecretID \"h2\" from storage: storage delete failed",
     { secrets :=
         [("secret_id/784b78ea2d08c0eb4f824623bbe61459012ceb7a86f5c36f709b16b385f75c53/h2", {}),
          ("secret_id/784b78ea2d08c0eb4f824623bbe61459012ceb7a86f5c36f709b16b385f75c53/h3", {})],
       deleteFails :=
         ["secret_id/784b78ea2d08c0eb4f824623bbe61459012ceb7a86f5c36f709b16b385f75c53/h2"] }) := by
  decide

/-- Claim C5 (amended): when a storage delete fails partway through
`flushRoleSecrets`, the operation stops at the first error and returns that
error (naming the failing entry — no count is returned, the Go function's
only return value is the error); entries deleted before the failure remain
deleted and no other entry is touched. -/
theorem flush_stops_at_first_error (st : Store) (rn hk pfx rh : String)
    (hs1 : List String) (kbad : String) (hs2 : List String)
    (hrh : createHMAC hk rn = .ok rh)
    (hlist : st.listSecrets (pfx ++ rh ++ "/") = hs1 ++ kbad :: hs2)
    (hok : ∀ h ∈ hs1, (pfx ++ rh ++ "/" ++ h) ∉ st.deleteFails)
    (hbad : (pfx ++ rh ++ "/" ++ kbad) ∈ st.deleteFails) :
    (flushRoleSecrets st rn hk pfx).1 =
        .error ("error deleting SecretID \"" ++ kbad ++ "\" from storage: storage delete failed")
  ∧ (∀ h ∈ hs1, (flushRoleSecrets st rn hk pfx).2.getSecret (pfx ++ rh ++ "/" ++ h) = none)
  ∧ (∀ k, (∀ h ∈ hs1, k ≠ pfx ++ rh ++ "/" ++ h) →
      (flushRoleSecrets st rn hk pfx).2.getSecret k = st.getSecret k) := by
  unfold flushRoleSecrets
  simp only [hrh]
  rw [hlist]
  exact flushLoop_spec (pfx ++ rh ++ "/") hs1 kbad hs2 st hok hbad

/-- Witness for the amended C5 on the concrete three-entry store: the error
names the failing entry, the first entry is gone, the third remains. -/
theorem flush_stops_at_first_error_witness :
    (flushRoleSecrets
        { secrets :=
            [("secret_id/784b78ea2d08c0eb4f824623bbe61459012ceb7a86f5c36f709b16b385f75c53/h1", {}),
             ("secret_id/784b78ea2d08c0eb4f824623bbe61459012ceb7a86f5c36f709b16b385f75c53/h2", {}),
             ("secret_id/784b78ea2d08c0eb4f824623bbe61459012ceb7a86f5c36f709b16b385f75c53/h3", {})],
          deleteFails :=
            ["secret_id/784b78ea2d08c0eb4f824623bbe61459012ceb7a86f5c36f709b16b385f75c53/h2"] }
        "r" "k" "secret_id/").1 =
      .error "error deleting SecretID \"h2\" from storage: storage delete failed"
  ∧ (flushRoleSecrets
        { secrets :=
            [("secret_id/784b78ea2d08c0eb4f824623bbe61459012ceb7a86f5c36f709b16b385f75c53/h1", {}),
             ("secret_id/784b78ea2d08c0eb4f824623bbe61459012ceb7a86f5c36f709b16b385f75c53/h2", {}),
             ("secret_id/784b78ea2d08c0eb4f824623bbe61459012ceb7a86f5c36f709b16b385f75c53/h3", {})],
          deleteFails :=
            ["secret_id/784b78ea2d08c0eb4f824623bbe61459012ceb7a86f5c36f709b16b385f75c53/h2"] }
        "r" "k" "secret_id/").2.getSecret
      "secret_id/784b78ea2d08c0eb4f824623bbe61459012ceb7a86f5c36f709b16b385f75c53/h1" = none := by
  have h := flush_stops_at_first_error
    { secrets :=
        [("secret_id/784b78ea2d08c0eb4f824623bbe61459012ceb7a86f5c36f709b16b385f75c53/h1", {}),
         ("secret_id/784b78ea2d08c0eb4f824623bbe61459012ceb7a86f5c36f709b16b385f75c53/h2", {}),
         ("secret_id/784b78ea2d08c0eb4f824623bbe61459012ceb7a86f5c36f709b16b385f75c53/h3", {})],
      deleteFails :=
        ["secret_id/784b78ea2d08c0eb4f824623bbe61459012ceb7a86f5c36f709b16b385f75c53/h2"] }
    "r" "k" "secret_id/"
    "784b78ea2d08c0eb4f824623bbe61459012ceb7a86f5c36f709b16b385f75c53"
    ["h1"] "h2" ["h3"]
    (by decide) (by decide) (by decide) (by decide)
  refine ⟨by simpa using h.1, ?_⟩
  have h2 := h.2.1 "h1" (by decide)
  simpa using h2
